import Mathlib

/-!
Shallow embedding of the history voice agent adapter layer
(knowledge-agent/agent.py) and proofs about it.

Modelling conventions:
- The external effects (the Gemini chat call, the Gladia and MiniMax HTTP
  round trips) are modelled as explicit outcome values handed to the
  embedded functions.  Everything else is translated directly from the
  Python source.
- Python exception handling becomes totality: each adapter method whose
  body is one big try/except is embedded as a total Lean function, which
  is the formal content of "never raises".
- Python dictionary reads performed with .get are embedded on a small
  universe of Python values (PyValue); calling .get on a non-dict raises
  AttributeError, modelled as Except.error.
- Machine-level byte buffers are lists of naturals (their numeric values
  are never inspected by the code).
-/

/-- A chat message in the OpenAI-style dictionary format handled by
GeminiLLM._convert_messages.  Either key may be absent, mirroring
msg.get with its defaults in the source. -/
structure Message where
  role : Option String
  content : Option String
deriving DecidableEq

/-- Outcome of the underlying Gemini send_message call: either a response
carrying text, or a raised exception whose str rendering is err. -/
inductive ModelOutcome where
  | success (text : String)
  | failure (err : String)
deriving DecidableEq

/-- State of a GeminiLLM instance: the lazily created chat handle
(self.chat in the source, None until the first completion call).  The
handle itself is opaque to the code, so it is modelled as Unit. -/
structure GeminiLLM where
  chat : Option Unit
deriving DecidableEq

/-- GeminiLLM.__init__ sets self.chat = None. -/
def GeminiLLM.init : GeminiLLM := ⟨none⟩

/-- One iteration of the loop in GeminiLLM._convert_messages: the line
appended to prompt_parts for msg, or none when the role matches no branch
(such a message is silently skipped by the source). -/
def renderMessage (m : Message) : Option String :=
  let role := m.role.getD "user"
  let content := m.content.getD ""
  if role = "system" then some ("System: " ++ content)
  else if role = "user" then some ("User: " ++ content)
  else if role = "assistant" then some ("Assistant: " ++ content)
  else none

/-- GeminiLLM._convert_messages: flatten the message list into a single
newline-joined prompt. -/
def GeminiLLM.convert_messages (messages : List Message) : String :=
  String.intercalate "\n" (messages.filterMap renderMessage)

/-- The reply dictionary produced by GeminiLLM.chat_completion
(choices[0].message in the source). -/
structure ChatReply where
  content : String
  role : String
deriving DecidableEq

/-- Everything observable about one chat_completion call: the updated
instance state, the reply returned, the prompt string sent through the
chat handle, and how many times start_chat ran during the call. -/
structure ChatResult where
  state : GeminiLLM
  reply : ChatReply
  promptSent : String
  handleCreations : Nat
deriving DecidableEq

/-- The fixed prefix of the error reply built in chat_completion's except
branch. -/
def errApologyPre : String := "I apologize, but I encountered an error: "

/-- GeminiLLM.chat_completion.  The tools parameter is accepted but never
read by the source body, which this definition mirrors.  The chat handle
is created (start_chat) when absent, before the send; this happens even
when the send subsequently raises, so both outcome branches leave the
handle present.  The function is total: the source catches every
exception and converts it into a normal reply. -/
def GeminiLLM.chat_completion (st : GeminiLLM) (messages : List Message)
    (tools : Option (List String)) (outcome : ModelOutcome) : ChatResult :=
  let prompt := GeminiLLM.convert_messages messages
  let created := if st.chat.isNone then 1 else 0
  let st2 : GeminiLLM := ⟨some ()⟩
  match outcome with
  | .success text => ⟨st2, ⟨text, "assistant"⟩, prompt, created⟩
  | .failure err => ⟨st2, ⟨errApologyPre ++ err, "assistant"⟩, prompt, created⟩

/-- One chat_completion invocation in a sequence of calls against the same
instance: the arguments plus the behaviour of the backend on that call. -/
structure CallSpec where
  messages : List Message
  tools : Option (List String)
  outcome : ModelOutcome

/-- Run a sequence of chat_completion calls on one instance, threading the
state and totalling the number of start_chat invocations. -/
def runCalls (st : GeminiLLM) : List CallSpec → GeminiLLM × Nat
  | [] => (st, 0)
  | c :: cs =>
      let r := st.chat_completion c.messages c.tools c.outcome
      let rest := runCalls r.state cs
      (rest.1, r.handleCreations + rest.2)

/-- A Python value as far as the Gladia response handling inspects it:
a JSON object, a string, or anything else. -/
inductive PyValue where
  | str (s : String)
  | dict (fields : List (String × PyValue))
  | other

/-- Python v.get(k, default): defined on dicts; on any other value Python
raises AttributeError, modelled as Except.error. -/
def PyValue.get (v : PyValue) (k : String) (default : PyValue) : Except String PyValue :=
  match v with
  | .dict fields =>
      match fields.lookup k with
      | some x => .ok x
      | none => .ok default
  | _ => .error "AttributeError"

/-- An HTTP response as the adapters see it: a status code and a body. -/
structure HttpResponse (β : Type) where
  status : Nat
  body : β

/-- Outcome of one HTTP round trip: a response, or an exception raised
anywhere in the session/post/read sequence. -/
inductive NetOutcome (β : Type) where
  | resp (r : HttpResponse β)
  | exn (e : String)

/-- The transcript extraction chain in GladiaSTT.recognize:
result.get with key transcription and default empty dict, then .get with
key full_transcript and default empty string. -/
def extractTranscript (result : PyValue) : Except String PyValue :=
  match result.get "transcription" (.dict []) with
  | .error e => .error e
  | .ok t => t.get "full_transcript" (.str "")

/-- State of a GladiaSTT instance as set by its __init__. -/
structure GladiaSTT where
  api_key : String
  base_url : String
deriving DecidableEq

/-- GladiaSTT.__init__. -/
def GladiaSTT.init (api_key : String) : GladiaSTT :=
  ⟨api_key, "https://api.gladia.io"⟩

/-- GladiaSTT.recognize.  The body of the 200 branch parses JSON
(Except.error models response.json() raising on a malformed body) and
runs the .get chain; every failure path, including a non-200 status and
any exception, yields the empty string.  The function is total: the
source wraps the whole body in try/except. -/
def GladiaSTT.recognize (self : GladiaSTT) (audio_data : List Nat)
    (net : NetOutcome (Except String PyValue)) : PyValue :=
  match net with
  | .exn _ => .str ""
  | .resp r =>
      if r.status = 200 then
        match r.body with
        | .error _ => .str ""
        | .ok result =>
            match extractTranscript result with
            | .ok transcript => transcript
            | .error _ => .str ""
      else .str ""

/-- State of a MinimaxTTS instance as set by its __init__. -/
structure MinimaxTTS where
  api_key : String
  base_url : String
deriving DecidableEq

/-- MinimaxTTS.__init__. -/
def MinimaxTTS.init (api_key : String) : MinimaxTTS :=
  ⟨api_key, "https://api.minimax.chat"⟩

/-- MinimaxTTS.synthesize: on a 200 status return the raw response bytes,
on any other status or any exception return the empty byte sequence.
Total, as the source wraps the whole body in try/except. -/
def MinimaxTTS.synthesize (self : MinimaxTTS) (text : String)
    (net : NetOutcome (List Nat)) : List Nat :=
  match net with
  | .exn _ => []
  | .resp r => if r.status = 200 then r.body else []

/-- The three environment variables read in HistoryAgent.__init__, each
possibly unset. -/
structure Env where
  GEMINI_API_KEY : Option String
  GLADIA_API_KEY : Option String
  MINIMAX_API_KEY : Option String
deriving DecidableEq

/-- Python truthiness of an os.getenv result: None and the empty string
are falsy; this is what the all([...]) check in the source tests. -/
def pyTruthy : Option String → Bool
  | none => false
  | some s => !(s == "")

/-- Python truthiness of a plain string (used by if self.context). -/
def pyTruthyStr (s : String) : Bool := !(s == "")

/-- The base persona instructions literal from HistoryAgent.__init__
(a triple-quoted Python string: leading newline, eight-space indents,
trailing spaces on blank lines, trailing indent before the closing
quotes). -/
def base_instructions : String :=
  "\n        You are a knowledgeable and enthusiastic history expert specializing in historical places, events, and cultural heritage.\n        \n        Your role:\n        - Share fascinating historical facts, stories, and insights\n        - Help users discover the rich history of places around the world\n        - Provide context about historical events, figures, and periods\n        - Make history engaging and accessible through vivid storytelling\n        - Connect past events to their modern significance\n        \n        Guidelines:\n        - Be passionate and engaging about historical topics\n        - Provide specific dates, names, and details when possible\n        - Use storytelling to bring historical events to life\n        - Encourage curiosity about history and cultural heritage\n        - If you don\x27t know something specific, admit it but offer related information\n        - Keep responses conversational and informative\n        "

/-- The suffix appended to the instructions when a context is present. -/
def contextSuffix (context : String) : String :=
  "\n\nAdditional context for this conversation:\n" ++ context

/-- The fields HistoryAgent.__init__ stores on a successfully constructed
agent (the host-runtime plumbing such as VAD is out of scope). -/
structure HistoryAgent where
  gemini_llm : GeminiLLM
  gladia_stt : GladiaSTT
  minimax_tts : MinimaxTTS
  context : String
  instructions : String

/-- Result of running HistoryAgent.__init__: a constructed agent, or the
ValueError the source raises. -/
inductive InitResult where
  | ok (agent : HistoryAgent)
  | valueError (msg : String)

/-- HistoryAgent.__init__: read the three keys from the environment, raise
ValueError unless all three are Python-truthy, otherwise build the three
adapters, store context or the empty string, and extend the instructions
with the context when it is non-empty. -/
def HistoryAgent.init (env : Env) (context : Option String) : InitResult :=
  let gemini_key := env.GEMINI_API_KEY
  let gladia_key := env.GLADIA_API_KEY
  let minimax_key := env.MINIMAX_API_KEY
  if pyTruthy gemini_key && pyTruthy gladia_key && pyTruthy minimax_key then
    let ctx := context.getD ""
    .ok
      { gemini_llm := GeminiLLM.init
        gladia_stt := GladiaSTT.init (gladia_key.getD "")
        minimax_tts := MinimaxTTS.init (minimax_key.getD "")
        context := ctx
        instructions :=
          if pyTruthyStr ctx then base_instructions ++ contextSuffix ctx
          else base_instructions }
  else
    .valueError "Missing required API keys. Check your .env file."

/-- The part of the get_historical_info prompt template before the
interpolated topic. -/
def historicalInfoPre : String :=
  "\n        Provide comprehensive historical information about: "

/-- The part of the get_historical_info prompt template after the
interpolated topic. -/
def historicalInfoPost : String :=
  "\n        \n        Include:\n        - Key historical facts and timeline\n        - Important figures and events\n        - Cultural and architectural significance\n        - Interesting stories or legends\n        - Modern-day relevance or status\n        \n        Make it engaging and educational, suitable for someone curious about history.\n        "

/-- The part of the explore_time_period prompt template before the
interpolated period. -/
def timePeriodPre : String :=
  "\n        Provide an engaging overview of the historical period: "

/-- The part of the explore_time_period prompt template after the
interpolated period. -/
def timePeriodPost : String :=
  "\n        \n        Include:\n        - Major events and developments\n        - Daily life and society\n        - Important figures and leaders\n        - Cultural achievements and innovations\n        - Lasting impact on modern world\n        \n        Make it vivid and immersive, as if taking someone on a journey through time.\n        "

/-- The canned apology literal in get_historical_info's except branch.
That branch is unreachable in the source because chat_completion catches
every exception itself and indexing its fixed-shape return value cannot
fail; the literal is embedded for reference. -/
def historicalInfoApology (place_or_event : String) : String :=
  "I encountered an issue researching " ++ place_or_event ++
    ". Let me share what I know from my training data instead."

/-- The canned apology literal in explore_time_period's except branch
(unreachable for the same reason). -/
def timePeriodApology (time_period : String) : String :=
  "I had trouble exploring that time period in detail. Let me share what I know about " ++
    time_period ++ " from my knowledge."

/-- Everything observable about one tool invocation: the updated LLM
state, the string returned to the host runtime, and the prompts of the
downstream chat_completion calls made (one entry per call). -/
structure ToolCallResult where
  state : GeminiLLM
  output : String
  promptsSent : List String

/-- HistoryAgent.get_historical_info: build the research prompt, delegate
to chat_completion as a single user message, return the reply content.
The except branch of the source (historicalInfoApology) is dead code
because chat_completion is total, so it does not appear in the result. -/
def HistoryAgent.get_historical_info (st : GeminiLLM) (place_or_event : String)
    (outcome : ModelOutcome) : ToolCallResult :=
  let prompt := historicalInfoPre ++ place_or_event ++ historicalInfoPost
  let r := st.chat_completion [⟨some "user", some prompt⟩] none outcome
  ⟨r.state, r.reply.content, [r.promptSent]⟩

/-- HistoryAgent.explore_time_period: same shape as get_historical_info
with the era-oriented template. -/
def HistoryAgent.explore_time_period (st : GeminiLLM) (time_period : String)
    (outcome : ModelOutcome) : ToolCallResult :=
  let prompt := timePeriodPre ++ time_period ++ timePeriodPost
  let r := st.chat_completion [⟨some "user", some prompt⟩] none outcome
  ⟨r.state, r.reply.content, [r.promptSent]⟩

/-- One session.say call: the text spoken and the allow_interruptions
flag. -/
structure Utterance where
  text : String
  allow_interruptions : Bool
deriving DecidableEq

/-- The part of the context-mentioning greeting before the interpolated
context (Python juxtaposes two adjacent string literals here). -/
def contextGreetingPre : String :=
  "Hello! I\x27m your history guide. I have some context about "

/-- The part of the context-mentioning greeting after the interpolated
context. -/
def contextGreetingPost : String :=
  ". What would you like to explore about history today?"

/-- The generic greeting spoken when no context was supplied. -/
def genericGreeting : String :=
  "Hello! I\x27m your personal history expert. I love sharing fascinating stories about historical places, events, and cultures. What historical topic interests you?"

/-- HistoryAgent.on_enter: the list of utterances emitted, in order.  The
source speaks exactly one of two greetings depending on the truthiness of
self.context. -/
def HistoryAgent.on_enter (self : HistoryAgent) : List Utterance :=
  if pyTruthyStr self.context then
    [⟨contextGreetingPre ++ self.context ++ contextGreetingPost, true⟩]
  else
    [⟨genericGreeting, true⟩]

/-- Substring occurrence: pat occurs contiguously in s. -/
def strContains (pat s : String) : Prop := pat.data <:+: s.data

/-- A string is contained in any string whose character list sandwiches
its character list. -/
theorem strContains_parts (b : String) (l r : List Char) (s : String)
    (h : s.data = l ++ b.data ++ r) : strContains b s :=
  ⟨l, r, h.symm⟩

/-- The capitalized label the source gives each recognized role. -/
def roleLabel (role : String) : String :=
  if role = "system" then "System"
  else if role = "user" then "User"
  else if role = "assistant" then "Assistant"
  else role

/-- C1: for every message sequence and every behaviour of the underlying
model call, chat_completion never raises (it is a total function); on a
successful call the reply carries the response text, on a failing call the
reply content contains the exception text, and in both cases the reply
role is exactly the string assistant. -/
theorem chat_completion_never_raises (st : GeminiLLM) (messages : List Message)
    (tools : Option (List String)) :
    (∀ text,
       (st.chat_completion messages tools (.success text)).reply.role = "assistant" ∧
       (st.chat_completion messages tools (.success text)).reply.content = text) ∧
    (∀ err,
       (st.chat_completion messages tools (.failure err)).reply.role = "assistant" ∧
       strContains err (st.chat_completion messages tools (.failure err)).reply.content) := by
  refine ⟨fun text => ⟨rfl, rfl⟩, fun err => ⟨rfl, ?_⟩⟩
  show err.data <:+: (errApologyPre ++ err).data
  exact ⟨errApologyPre.data, [], by simp [String.data_append]⟩

/-- C9: chat_completion is independent of its tools argument — for any two
values of the parameter the entire observable result (state, reply, prompt
sent to the model, handle creations) is identical, because the source body
never reads the parameter. -/
theorem chat_completion_tools_independent (st : GeminiLLM) (messages : List Message)
    (outcome : ModelOutcome) (t1 t2 : Option (List String)) :
    st.chat_completion messages t1 outcome = st.chat_completion messages t2 outcome := rfl

/-- C5: on message sequences whose roles are all drawn from the data
model's role set, the flattened prompt is the newline join of exactly one
line per input message, in input order, each line being the capitalized
role label, a colon-space, and the content. -/
theorem convert_messages_in_order (msgs : List Message)
    (h : ∀ m ∈ msgs, m.role.getD "user" = "system" ∨ m.role.getD "user" = "user" ∨
        m.role.getD "user" = "assistant") :
    GeminiLLM.convert_messages msgs =
      String.intercalate "\n"
        (msgs.map fun m => roleLabel (m.role.getD "user") ++ ": " ++ m.content.getD "") := by
  unfold GeminiLLM.convert_messages
  congr 1
  induction msgs with
  | nil => rfl
  | cons m ms ih =>
      have hm := h m (List.mem_cons_self m ms)
      have hms := fun x hx => h x (List.mem_cons_of_mem m hx)
      rw [List.filterMap_cons, List.map_cons]
      rcases hm with h1 | h1 | h1 <;>
        simp [renderMessage, roleLabel, h1, ih hms]

/-- Witness for C5 at a concrete three-message history. -/
theorem convert_messages_in_order_witness :
    (∀ m ∈ ([⟨some "system", some "be brief"⟩, ⟨some "user", some "hi"⟩,
        ⟨some "assistant", some "hello"⟩] : List Message),
       m.role.getD "user" = "system" ∨ m.role.getD "user" = "user" ∨
         m.role.getD "user" = "assistant") ∧
    GeminiLLM.convert_messages
        [⟨some "system", some "be brief"⟩, ⟨some "user", some "hi"⟩,
          ⟨some "assistant", some "hello"⟩] =
      String.intercalate "\n"
        (([⟨some "system", some "be brief"⟩, ⟨some "user", some "hi"⟩,
            ⟨some "assistant", some "hello"⟩] : List Message).map
          fun m => roleLabel (m.role.getD "user") ++ ": " ++ m.content.getD "") :=
  ⟨by decide, convert_messages_in_order _ (by decide)⟩

/-- C10: edge cases of message flattening — a message with an unrecognized
role contributes no line at all (the prompt is as if it were deleted), a
message with no role key is rendered with the User label, and a message
with no content key renders exactly as one with empty content. -/
theorem convert_messages_edge_cases :
    (∀ (ms1 ms2 : List Message) (r : String) (c : Option String),
       r ≠ "system" → r ≠ "user" → r ≠ "assistant" →
       GeminiLLM.convert_messages (ms1 ++ ⟨some r, c⟩ :: ms2) =
         GeminiLLM.convert_messages (ms1 ++ ms2)) ∧
    (∀ c : String, renderMessage ⟨none, some c⟩ = some ("User: " ++ c)) ∧
    (∀ r : Option String, renderMessage ⟨r, none⟩ = renderMessage ⟨r, some ""⟩) := by
  refine ⟨fun ms1 ms2 r c h1 h2 h3 => ?_, fun c => rfl, fun r => rfl⟩
  unfold GeminiLLM.convert_messages
  rw [List.filterMap_append, List.filterMap_append, List.filterMap_cons]
  simp [renderMessage, h1, h2, h3]

/-- Witness for C10: a tool-role message in the middle of a history is
dropped from the flattened prompt. -/
theorem convert_messages_edge_cases_witness :
    (("tool" : String) ≠ "system" ∧ ("tool" : String) ≠ "user" ∧
      ("tool" : String) ≠ "assistant") ∧
    GeminiLLM.convert_messages
        [⟨some "user", some "hi"⟩, ⟨some "tool", some "x"⟩, ⟨some "user", some "bye"⟩] =
      GeminiLLM.convert_messages [⟨some "user", some "hi"⟩, ⟨some "user", some "bye"⟩] :=
  ⟨⟨by decide, by decide, by decide⟩,
    convert_messages_edge_cases.1 [⟨some "user", some "hi"⟩] [⟨some "user", some "bye"⟩]
      "tool" (some "x") (by decide) (by decide) (by decide)⟩

/-- C2: recognize never raises (it is a total function); it returns the
empty string on a transport exception, on any non-200 status, on a 200
response whose body is not parseable JSON, and on parseable JSON missing
either expected field; on a 200 response carrying the expected nested
transcript hello it returns hello. -/
theorem recognize_fail_soft (self : GladiaSTT) (audio_data : List Nat) :
    (∀ e, self.recognize audio_data (.exn e) = .str "") ∧
    (∀ status body, status ≠ 200 →
       self.recognize audio_data (.resp ⟨status, body⟩) = .str "") ∧
    (∀ status e, self.recognize audio_data (.resp ⟨status, .error e⟩) = .str "") ∧
    (∀ fields, fields.lookup "transcription" = none →
       self.recognize audio_data (.resp ⟨200, .ok (.dict fields)⟩) = .str "") ∧
    (∀ fields inner, fields.lookup "transcription" = some (.dict inner) →
       inner.lookup "full_transcript" = none →
       self.recognize audio_data (.resp ⟨200, .ok (.dict fields)⟩) = .str "") ∧
    self.recognize audio_data
        (.resp ⟨200, .ok (.dict [("transcription", .dict [("full_transcript", .str "hello")])])⟩) =
      .str "hello" := by
  refine ⟨fun e => rfl, fun status body h => ?_, fun status e => ?_,
    fun fields h => ?_, fun fields inner h1 h2 => ?_, rfl⟩
  · simp [GladiaSTT.recognize, h]
  · by_cases hs : status = 200 <;> simp [GladiaSTT.recognize, hs]
  · simp [GladiaSTT.recognize, extractTranscript, PyValue.get, h]
  · simp [GladiaSTT.recognize, extractTranscript, PyValue.get, h1, h2]

/-- Witness for C2 across its failure branches and the success branch. -/
theorem recognize_fail_soft_witness :
    ((GladiaSTT.init "k").recognize [1, 2] (.exn "timeout") = .str "") ∧
    ((404 : Nat) ≠ 200 ∧
      (GladiaSTT.init "k").recognize [1, 2] (.resp ⟨404, .ok (.dict [])⟩) = .str "") ∧
    ((GladiaSTT.init "k").recognize [1, 2] (.resp ⟨200, .error "bad json"⟩) = .str "") ∧
    (([] : List (String × PyValue)).lookup "transcription" = none ∧
      (GladiaSTT.init "k").recognize [1, 2] (.resp ⟨200, .ok (.dict [])⟩) = .str "") ∧
    ([("transcription", PyValue.dict [])].lookup "transcription" = some (.dict []) ∧
      ([] : List (String × PyValue)).lookup "full_transcript" = none ∧
      (GladiaSTT.init "k").recognize [1, 2]
          (.resp ⟨200, .ok (.dict [("transcription", .dict [])])⟩) = .str "") ∧
    (GladiaSTT.init "k").recognize [1, 2]
        (.resp ⟨200, .ok (.dict [("transcription", .dict [("full_transcript", .str "hello")])])⟩) =
      .str "hello" :=
  ⟨(recognize_fail_soft (GladiaSTT.init "k") [1, 2]).1 "timeout",
    ⟨by decide, (recognize_fail_soft (GladiaSTT.init "k") [1, 2]).2.1 404 _ (by decide)⟩,
    (recognize_fail_soft (GladiaSTT.init "k") [1, 2]).2.2.1 200 "bad json",
    ⟨rfl, (recognize_fail_soft (GladiaSTT.init "k") [1, 2]).2.2.2.1 [] rfl⟩,
    ⟨rfl, rfl, (recognize_fail_soft (GladiaSTT.init "k") [1, 2]).2.2.2.2.1
      [("transcription", .dict [])] [] rfl rfl⟩,
    (recognize_fail_soft (GladiaSTT.init "k") [1, 2]).2.2.2.2.2⟩

/-- C3: synthesize never raises (it is a total function); it returns the
empty byte sequence on a transport exception and on any non-200 status,
and returns exactly the raw response body bytes on a 200 status. -/
theorem synthesize_fail_soft (self : MinimaxTTS) (text : String) :
    (∀ e, self.synthesize text (.exn e) = []) ∧
    (∀ status body, status ≠ 200 → self.synthesize text (.resp ⟨status, body⟩) = []) ∧
    (∀ body, self.synthesize text (.resp ⟨200, body⟩) = body) := by
  refine ⟨fun e => rfl, fun status body h => ?_, fun body => rfl⟩
  simp [MinimaxTTS.synthesize, h]

/-- Witness for C3, with the RIFF header bytes as the 200 body. -/
theorem synthesize_fail_soft_witness :
    ((MinimaxTTS.init "k").synthesize "hi" (.exn "timeout") = []) ∧
    ((500 : Nat) ≠ 200 ∧
      (MinimaxTTS.init "k").synthesize "hi" (.resp ⟨500, [82, 73, 70, 70]⟩) = []) ∧
    (MinimaxTTS.init "k").synthesize "hi" (.resp ⟨200, [82, 73, 70, 70]⟩) = [82, 73, 70, 70] :=
  ⟨(synthesize_fail_soft (MinimaxTTS.init "k") "hi").1 "timeout",
    ⟨by decide, (synthesize_fail_soft (MinimaxTTS.init "k") "hi").2.1 500 _ (by decide)⟩,
    (synthesize_fail_soft (MinimaxTTS.init "k") "hi").2.2 [82, 73, 70, 70]⟩

/-- Any run of chat_completion calls starting from a state that already
holds a chat handle performs no handle creation and keeps the handle. -/
theorem runCalls_handle_present (cs : List CallSpec) :
    ∀ st : GeminiLLM, st.chat = some () → (runCalls st cs).2 = 0 := by
  induction cs with
  | nil => intro st h; rfl
  | cons c cs ih =>
      intro st h
      unfold runCalls
      cases hc : c.outcome <;>
        simp [GeminiLLM.chat_completion, h, hc, ih ⟨some ()⟩ rfl]

/-- C6: the chat handle is absent at construction; every chat_completion
call leaves the handle present and performs a creation exactly when the
handle was absent; hence across any non-empty sequence of calls on a
fresh instance the creation runs exactly once; and the handle field is
the entire mutable state of the instance (two states with equal handle
fields are equal). -/
theorem chat_handle_lazy_once :
    GeminiLLM.init.chat = none ∧
    (∀ (st : GeminiLLM) (msgs : List Message) (tools : Option (List String))
        (outcome : ModelOutcome),
       (st.chat_completion msgs tools outcome).state.chat = some () ∧
       (st.chat_completion msgs tools outcome).handleCreations =
         (if st.chat.isNone then 1 else 0)) ∧
    (∀ calls : List CallSpec, calls ≠ [] → (runCalls GeminiLLM.init calls).2 = 1) ∧
    (∀ s1 s2 : GeminiLLM, s1.chat = s2.chat → s1 = s2) := by
  refine ⟨rfl, fun st msgs tools outcome => ⟨?_, ?_⟩, fun calls hne => ?_, ?_⟩
  · cases outcome <;> rfl
  · cases outcome <;> rfl
  · match calls, hne with
    | c :: cs, _ =>
        have h2 : (GeminiLLM.init.chat_completion c.messages c.tools c.outcome).state.chat
            = some () := by cases hc : c.outcome <;> simp [GeminiLLM.chat_completion, hc]
        have h1 : (GeminiLLM.init.chat_completion c.messages c.tools c.outcome).handleCreations
            = 1 := by cases hc : c.outcome <;> simp [GeminiLLM.chat_completion, GeminiLLM.init, hc]
        show (GeminiLLM.init.chat_completion c.messages c.tools c.outcome).handleCreations +
            (runCalls (GeminiLLM.init.chat_completion c.messages c.tools c.outcome).state cs).2 = 1
        rw [h1, runCalls_handle_present cs _ h2]
  · intro s1 s2 h
    cases s1; cases s2; simpa using h

/-- Witness for C6: two calls on a fresh instance create the handle once. -/
theorem chat_handle_lazy_once_witness :
    (([⟨[⟨some "user", some "hi"⟩], none, .success "hello"⟩,
        ⟨[⟨some "user", some "again"⟩], none, .failure "boom"⟩] : List CallSpec) ≠ []) ∧
    (runCalls GeminiLLM.init
        [⟨[⟨some "user", some "hi"⟩], none, .success "hello"⟩,
          ⟨[⟨some "user", some "again"⟩], none, .failure "boom"⟩]).2 = 1 :=
  ⟨by simp, chat_handle_lazy_once.2.2.1
    [⟨[⟨some "user", some "hi"⟩], none, .success "hello"⟩,
      ⟨[⟨some "user", some "again"⟩], none, .failure "boom"⟩] (by simp)⟩

instance instDecidableStrContains (p s : String) : Decidable (strContains p s) := by
  unfold strContains
  infer_instance

/-- The prompt string chat_completion hands to the model is always the
flattened message list, whatever the outcome. -/
theorem chat_completion_promptSent (st : GeminiLLM) (msgs : List Message)
    (tools : Option (List String)) (outcome : ModelOutcome) :
    (st.chat_completion msgs tools outcome).promptSent = GeminiLLM.convert_messages msgs := by
  cases outcome <;> rfl

/-- Flattening a single user message prepends the User label. -/
theorem convert_single_user (content : String) :
    GeminiLLM.convert_messages [⟨some "user", some content⟩] = "User: " ++ content := rfl

/-- The reply content chat_completion returns, in both outcome branches. -/
theorem chat_completion_content (st : GeminiLLM) (msgs : List Message)
    (tools : Option (List String)) :
    (∀ text, (st.chat_completion msgs tools (.success text)).reply.content = text) ∧
    (∀ err, (st.chat_completion msgs tools (.failure err)).reply.content = errApologyPre ++ err) :=
  ⟨fun _ => rfl, fun _ => rfl⟩

/-- C4 counterexample: an environment in which all three credentials are
present (none is absent) but the Gemini key is the empty string still
aborts construction with the ValueError, contradicting the claim that a
missing credential is the only aborting condition. -/
theorem history_agent_init_counterexample :
    HistoryAgent.init ⟨some "", some "gladia-key", some "minimax-key"⟩ none =
      .valueError "Missing required API keys. Check your .env file." ∧
    (some "" : Option String) ≠ none ∧
    (some "gladia-key" : Option String) ≠ none ∧
    (some "minimax-key" : Option String) ≠ none :=
  ⟨rfl, by simp, by simp, by simp⟩

/-- C4 amended: construction fails with the ValueError exactly when some
credential is Python-falsy (absent from the environment or set to the
empty string), and succeeds exactly when all three are present and
non-empty. -/
theorem history_agent_init_config (env : Env) (context : Option String) :
    ((∃ msg, HistoryAgent.init env context = .valueError msg) ↔
       (pyTruthy env.GEMINI_API_KEY = false ∨ pyTruthy env.GLADIA_API_KEY = false ∨
         pyTruthy env.MINIMAX_API_KEY = false)) ∧
    ((∃ a, HistoryAgent.init env context = .ok a) ↔
       (pyTruthy env.GEMINI_API_KEY = true ∧ pyTruthy env.GLADIA_API_KEY = true ∧
         pyTruthy env.MINIMAX_API_KEY = true)) := by
  unfold HistoryAgent.init
  cases hg : pyTruthy env.GEMINI_API_KEY <;>
    cases hl : pyTruthy env.GLADIA_API_KEY <;>
      cases hm : pyTruthy env.MINIMAX_API_KEY <;>
        simp [hg, hl, hm]

/-- C7 counterexample: with the model call failing, get_historical_info
returns the conversation adapter's error reply, which does not mention
the topic at all and is not the canned topic-naming apology from the
source's (unreachable) except branch. -/
theorem knowledge_tools_failure_counterexample :
    (HistoryAgent.get_historical_info GeminiLLM.init "Rome" (.failure "quota exceeded")).output =
      "I apologize, but I encountered an error: quota exceeded" ∧
    ¬ strContains "Rome"
        (HistoryAgent.get_historical_info GeminiLLM.init "Rome" (.failure "quota exceeded")).output ∧
    (HistoryAgent.get_historical_info GeminiLLM.init "Rome" (.failure "quota exceeded")).output ≠
      historicalInfoApology "Rome" :=
  ⟨rfl, by decide, by decide⟩

/-- C7 amended: each knowledge tool issues exactly one downstream
reasoning call, whose prompt contains the literal topic or period string
and the topic-appropriate template header; the tool returns the reply
content in both outcome branches, so on a failing model call the
returned string is the adapter's error apology embedding the error text
(the canned topic-naming apology in the source's except branch is
unreachable because chat_completion never raises). -/
theorem knowledge_tools_single_call (st : GeminiLLM) (topic period : String)
    (outcome : ModelOutcome) :
    ((HistoryAgent.get_historical_info st topic outcome).promptsSent.length = 1 ∧
     (HistoryAgent.explore_time_period st period outcome).promptsSent.length = 1) ∧
    (∀ p ∈ (HistoryAgent.get_historical_info st topic outcome).promptsSent,
       strContains topic p ∧ strContains "- Key historical facts and timeline" p) ∧
    (∀ p ∈ (HistoryAgent.explore_time_period st period outcome).promptsSent,
       strContains period p ∧ strContains "- Major events and developments" p) ∧
    (∀ text, outcome = .success text →
       (HistoryAgent.get_historical_info st topic outcome).output = text ∧
       (HistoryAgent.explore_time_period st period outcome).output = text) ∧
    (∀ err, outcome = .failure err →
       (HistoryAgent.get_historical_info st topic outcome).output = errApologyPre ++ err ∧
       (HistoryAgent.explore_time_period st period outcome).output = errApologyPre ++ err) := by
  refine ⟨⟨rfl, rfl⟩, fun p hp => ?_, fun p hp => ?_,
    fun text ht => by subst ht; exact ⟨rfl, rfl⟩,
    fun err he => by subst he; exact ⟨rfl, rfl⟩⟩
  · have hp2 : p = "User: " ++ (historicalInfoPre ++ topic ++ historicalInfoPost) := by
      have := List.mem_singleton.mp hp
      rw [this, chat_completion_promptSent, convert_single_user]
    rw [hp2]
    constructor
    · exact strContains_parts _ ("User: ".data ++ historicalInfoPre.data)
        historicalInfoPost.data _ (by simp [String.data_append])
    · have hkey : strContains "- Key historical facts and timeline" historicalInfoPost := by
        decide
      have hpost : historicalInfoPost.data <:+:
          ("User: " ++ (historicalInfoPre ++ topic ++ historicalInfoPost)).data :=
        ⟨"User: ".data ++ historicalInfoPre.data ++ topic.data, [],
          by simp [String.data_append]⟩
      exact hkey.trans hpost
  · have hp2 : p = "User: " ++ (timePeriodPre ++ period ++ timePeriodPost) := by
      have := List.mem_singleton.mp hp
      rw [this, chat_completion_promptSent, convert_single_user]
    rw [hp2]
    constructor
    · exact strContains_parts _ ("User: ".data ++ timePeriodPre.data)
        timePeriodPost.data _ (by simp [String.data_append])
    · have hkey : strContains "- Major events and developments" timePeriodPost := by
        decide
      have hpost : timePeriodPost.data <:+:
          ("User: " ++ (timePeriodPre ++ period ++ timePeriodPost)).data :=
        ⟨"User: ".data ++ timePeriodPre.data ++ period.data, [],
          by simp [String.data_append]⟩
      exact hkey.trans hpost

set_option maxRecDepth 10000 in
/-- Witness for C7 at concrete topics, outcomes and the concrete prompt. -/
theorem knowledge_tools_single_call_witness :
    (HistoryAgent.get_historical_info GeminiLLM.init "Rome" (.success "It was founded in 753 BC.")).output =
      "It was founded in 753 BC." ∧
    (HistoryAgent.explore_time_period GeminiLLM.init "Ancient Rome" (.failure "boom")).output =
      errApologyPre ++ "boom" ∧
    ("User: " ++ (historicalInfoPre ++ "Rome" ++ historicalInfoPost)) ∈
      (HistoryAgent.get_historical_info GeminiLLM.init "Rome"
        (.success "It was founded in 753 BC.")).promptsSent ∧
    strContains "Rome" ("User: " ++ (historicalInfoPre ++ "Rome" ++ historicalInfoPost)) :=
  ⟨((knowledge_tools_single_call GeminiLLM.init "Rome" "Ancient Rome"
      (.success "It was founded in 753 BC.")).2.2.2.1 "It was founded in 753 BC." rfl).1,
    ((knowledge_tools_single_call GeminiLLM.init "Rome" "Ancient Rome"
      (.failure "boom")).2.2.2.2 "boom" rfl).2,
    by decide,
    ((knowledge_tools_single_call GeminiLLM.init "Rome" "Ancient Rome"
      (.success "It was founded in 753 BC.")).2.1
      ("User: " ++ (historicalInfoPre ++ "Rome" ++ historicalInfoPost)) (by decide)).1⟩

/-- C8: on_enter emits exactly one utterance; with an empty context it is
the generic greeting, with a non-empty context it is the
context-mentioning greeting, whose text always differs from the generic
one. -/
theorem on_enter_single_greeting (a : HistoryAgent) :
    a.on_enter.length = 1 ∧
    (a.context = "" → a.on_enter = [⟨genericGreeting, true⟩]) ∧
    (a.context ≠ "" →
       a.on_enter = [⟨contextGreetingPre ++ a.context ++ contextGreetingPost, true⟩] ∧
       contextGreetingPre ++ a.context ++ contextGreetingPost ≠ genericGreeting) := by
  refine ⟨?_, fun h => ?_, fun h => ⟨?_, fun heq => ?_⟩⟩
  · unfold HistoryAgent.on_enter
    split <;> rfl
  · simp [HistoryAgent.on_enter, pyTruthyStr, h]
  · have hb : (a.context == "") = false := by simpa using h
    simp [HistoryAgent.on_enter, pyTruthyStr, hb]
  · have hpre : contextGreetingPre.data <+: genericGreeting.data := by
      rw [← heq]
      exact ⟨a.context.data ++ contextGreetingPost.data, by simp [String.data_append]⟩
    exact absurd hpre (by decide)

/-- Witness for C8 with a set context and with an empty context. -/
theorem on_enter_single_greeting_witness :
    (("ancient Rome" : String) ≠ "") ∧
    (HistoryAgent.mk GeminiLLM.init (GladiaSTT.init "g") (MinimaxTTS.init "m") "ancient Rome"
        (base_instructions ++ contextSuffix "ancient Rome")).on_enter =
      [⟨contextGreetingPre ++ "ancient Rome" ++ contextGreetingPost, true⟩] ∧
    (HistoryAgent.mk GeminiLLM.init (GladiaSTT.init "g") (MinimaxTTS.init "m") ""
        base_instructions).on_enter = [⟨genericGreeting, true⟩] :=
  ⟨by decide,
    ((on_enter_single_greeting _).2.2 (by decide)).1,
    (on_enter_single_greeting _).2.1 rfl⟩
